import Mathlib

/-!
Verification of the vipsignals scanner (src/main.py, src/indicators.py,
src/discord_sender.py, src/providers/*) against its specification.

Shallow embedding conventions:
* Prices, volumes and indicator values are exact rationals (`ℚ`); the float
  value NaN — and any other non-finite float such as the ±inf a division by
  zero can produce in numpy — is modelled as `none` in `Option ℚ`.
* A pandas DataFrame of OHLCV rows is a `List Bar` in row order; a derived
  column is a `List (Option ℚ)` aligned by position.
* Timestamps (`df["time"].value`, integer nanoseconds) are `ℤ`.
* A Python call that may raise is given its outcome as an `Except Unit`
  argument; `.error` models the raise.
-/

set_option maxRecDepth 4000000

namespace VipSignals

/-- One OHLCV bar: `time` is the bar's open_time in integer nanoseconds
(`df["time"].value`), the other fields the float columns as exact rationals. -/
structure Bar where
  time : ℤ
  openPrice : ℚ
  high : ℚ
  low : ℚ
  close : ℚ
  volume : ℚ
deriving DecidableEq

/-- A fetched DataFrame: the list of rows in positional order. -/
abbrev Frame := List Bar

/-- The `close` column of a frame. -/
def closes (df : Frame) : List ℚ := df.map Bar.close

/-- The `volume` column of a frame. -/
def volumes (df : Frame) : List ℚ := df.map Bar.volume

/-- The `time` column of a frame, as integer nanoseconds. -/
def times (df : Frame) : List ℤ := df.map Bar.time

/-- Float addition on column entries: NaN absorbs. -/
def oadd : Option ℚ → Option ℚ → Option ℚ
  | some a, some s => some (a + s)
  | _, _ => none

/-- Sum of a float column segment: `none` (NaN) if any entry is NaN, as in
pandas aggregation with `min_periods` equal to the window. -/
def osum : List (Option ℚ) → Option ℚ
  | [] => some 0
  | x :: t => oadd x (osum t)

/-- The length-`L` window of positions `i+1-L .. i` of a column. -/
def windowAt (L i : ℕ) (xs : List α) : List α := (xs.drop (i + 1 - L)).take L

/-- pandas `Series.rolling(L).mean()` over a float column: with the default
`min_periods = L`, position `i` holds the mean of the window ending at `i`
when `i + 1 ≥ L` and every window entry is finite, and NaN otherwise. -/
def rollingMeanO (L : ℕ) (xs : List (Option ℚ)) : List (Option ℚ) :=
  (List.range xs.length).map fun i =>
    if L ≤ i + 1 then (osum (windowAt L i xs)).map (fun s => s / (L : ℚ)) else none

/-- `rolling(L).mean()` of an everywhere-finite column. -/
def rollingMean (L : ℕ) (xs : List ℚ) : List (Option ℚ) :=
  rollingMeanO L (xs.map some)

/-- `indicators.sma`: simple rolling mean. -/
def sma (series : List ℚ) (length : ℕ) : List (Option ℚ) := rollingMean length series

/-- Recurrence of `Series.ewm(span, adjust=False).mean()`:
`y[i] = y[i-1] + α (x[i] - y[i-1])`. -/
def emaGo (α prev : ℚ) : List ℚ → List ℚ
  | [] => []
  | x :: t =>
    let e := prev + α * (x - prev)
    e :: emaGo α e t

/-- `indicators.ema`: `series.ewm(span=length, adjust=False).mean()`, seeded by
the first value, with `α = 2 / (length + 1)`. -/
def ema (xs : List ℚ) (length : ℕ) : List ℚ :=
  match xs with
  | [] => []
  | x :: t => x :: emaGo (2 / ((length : ℚ) + 1)) x t

/-- True range rows after the first, previous close in hand:
`max(|h-l|, |h-prev_c|, |l-prev_c|)`. -/
def trAbsGo (prev : Bar) : List Bar → List ℚ
  | [] => []
  | b :: t => max |b.high - b.low| (max |b.high - prev.close| |b.low - prev.close|) :: trAbsGo b t

/-- True range column of `indicators.atr`: row 0 has no previous close
(`c.shift(1)` is NaN there) and pandas `max(axis=1)` skips NaN, leaving
`|high - low|`. -/
def trAbs : Frame → List ℚ
  | [] => []
  | b :: t => |b.high - b.low| :: trAbsGo b t

/-- `indicators.atr`: rolling mean of true range over `length`. -/
def atr (df : Frame) (length : ℕ) : List (Option ℚ) := rollingMean length (trAbs df)

/-- True range rows after the first as `indicators.adx` builds them: the
`h - l` term is not passed through `abs` there. -/
def trRawGo (prev : Bar) : List Bar → List ℚ
  | [] => []
  | b :: t => max (b.high - b.low) (max |b.high - prev.close| |b.low - prev.close|) :: trRawGo b t

/-- True range column of `indicators.adx` (row 0 as in `trAbs`). -/
def trRaw : Frame → List ℚ
  | [] => []
  | b :: t => (b.high - b.low) :: trRawGo b t

/-- `plus_dm` rows after the first: `up` if `up > dn` and `up > 0` else `0`,
with `up = h.diff()`, `dn = -l.diff()`. -/
def plusDMGo (prev : Bar) : List Bar → List ℚ
  | [] => []
  | b :: t =>
    (if b.high - prev.high > prev.low - b.low ∧ b.high - prev.high > 0
     then b.high - prev.high else 0) :: plusDMGo b t

/-- `plus_dm` column: `np.where((up > dn) & (up > 0), up, 0.0)`. At row 0 both
diffs are NaN, every NaN comparison is False, so the entry is `0.0`. -/
def plusDM : Frame → List ℚ
  | [] => []
  | b :: t => 0 :: plusDMGo b t

/-- `minus_dm` rows after the first: `dn` if `dn > up` and `dn > 0` else `0`. -/
def minusDMGo (prev : Bar) : List Bar → List ℚ
  | [] => []
  | b :: t =>
    (if prev.low - b.low > b.high - prev.high ∧ prev.low - b.low > 0
     then prev.low - b.low else 0) :: minusDMGo b t

/-- `minus_dm` column: `np.where((dn > up) & (dn > 0), dn, 0.0)`, `0.0` at row 0. -/
def minusDM : Frame → List ℚ
  | [] => []
  | b :: t => 0 :: minusDMGo b t

/-- One entry of a directional index: `100 * dm_mean / atr_w`. A NaN operand
gives NaN; a zero denominator gives ±inf or NaN in numpy, in either case a
non-finite value, so `none` here. -/
def diPart (m a : Option ℚ) : Option ℚ :=
  match m, a with
  | some x, some y => if y = 0 then none else some (100 * x / y)
  | _, _ => none

/-- `plus_di` column of `indicators.adx`. -/
def plusDI (df : Frame) (length : ℕ) : List (Option ℚ) :=
  List.zipWith diPart (rollingMean length (plusDM df)) (rollingMean length (trRaw df))

/-- `minus_di` column of `indicators.adx`. -/
def minusDI (df : Frame) (length : ℕ) : List (Option ℚ) :=
  List.zipWith diPart (rollingMean length (minusDM df)) (rollingMean length (trRaw df))

/-- One entry of `dx = (|plus_di - minus_di| / (plus_di + minus_di).replace(0, nan)) * 100`:
NaN when either DI is NaN, and NaN when the denominator is zero, because
`replace(0, np.nan)` turns the zero denominator into NaN first. -/
def dxPart (p m : Option ℚ) : Option ℚ :=
  match p, m with
  | some x, some y => if x + y = 0 then none else some (|x - y| / (x + y) * 100)
  | _, _ => none

/-- `dx` column of `indicators.adx`. -/
def dxSeries (df : Frame) (length : ℕ) : List (Option ℚ) :=
  List.zipWith dxPart (plusDI df length) (minusDI df length)

/-- `indicators.adx`: rolling mean of `dx` over `length`. -/
def adx (df : Frame) (length : ℕ) : List (Option ℚ) :=
  rollingMeanO length (dxSeries df length)

/-- The configuration surface of `config.Config` that the scanner's decision
pipeline reads (env-derived constants, exact rationals for the float ones). -/
structure Config where
  MIN_BARS : ℕ
  LEVERAGE : ℤ
  RISK_ATR : ℚ
  PULL_L : ℚ
  PULL_U : ℚ
  TP_MULT : List ℚ
  MIN_ADX : ℚ
  VOL_MULT : ℚ
  ENABLE_FUNDING_FILTER : Bool
  MAX_ABS_FUNDING : ℚ
  COOLDOWN_BARS : ℤ
  REQUIRE_TREND_HTF : Bool
deriving DecidableEq

/-- `config.Config` with every field at its documented env default. -/
def defaultConfig : Config where
  MIN_BARS := 400
  LEVERAGE := 20
  RISK_ATR := 2.2
  PULL_L := 0.35
  PULL_U := 0.20
  TP_MULT := [0.8, 1.6, 2.4, 3.5, 4.2, 5.0]
  MIN_ADX := 18
  VOL_MULT := 1.4
  ENABLE_FUNDING_FILTER := false
  MAX_ABS_FUNDING := 0.05
  COOLDOWN_BARS := 12
  REQUIRE_TREND_HTF := true

/-- `main.format_tps`: `[price + m * atr_val for m in multipliers]`. -/
def format_tps (price atr_val : ℚ) (multipliers : List ℚ) : List ℚ :=
  multipliers.map fun m => price + m * atr_val

/-- `main.long_setup`: `(entry_high, entry_low, sl)`. -/
def long_setup (cfg : Config) (close_price atr_v : ℚ) : ℚ × ℚ × ℚ :=
  (close_price - cfg.PULL_U * atr_v,
   close_price - cfg.PULL_L * atr_v,
   close_price - cfg.RISK_ATR * atr_v)

/-- `main.short_setup`: returns `(entry_high, entry_low, sl)` with
`entry_low = close + PULL_U * atr`, `entry_high = close + PULL_L * atr`. -/
def short_setup (cfg : Config) (close_price atr_v : ℚ) : ℚ × ℚ × ℚ :=
  (close_price + cfg.PULL_L * atr_v,
   close_price + cfg.PULL_U * atr_v,
   close_price + cfg.RISK_ATR * atr_v)

/-- `main.passes_filters`: ADX then volume filter at the last closed bar
(position `len - 2`); a NaN ADX or volume SMA rejects. -/
def passes_filters (cfg : Config) (df : Frame) : Bool :=
  let n := df.length
  match ((adx df 14)[n - 2]?).getD none with
  | none => false
  | some adx_last =>
    if adx_last < cfg.MIN_ADX then false
    else
      match ((sma (volumes df) 20)[n - 2]?).getD none with
      | none => false
      | some vol_sma =>
        decide (¬ ((volumes df)[n - 2]?).getD 0 < cfg.VOL_MULT * vol_sma)

/-- `main.htf_trend_ok`: the higher-timeframe gate. `htfFetch` is the outcome
of `PROV.fetch_ohlcv_df(symbol, C.HTF, 300)`; a raise (`.error`) is caught by
the surrounding `try` and the gate returns `True` (fail-open), as does a
series shorter than 210 rows. Otherwise the gate compares the close and the
EMA(200) at the last closed bar of the secondary series. -/
def htf_trend_ok (cfg : Config) (htfFetch : Except Unit Frame) (want_long : Bool) : Bool :=
  if cfg.REQUIRE_TREND_HTF = false then true
  else
    match htfFetch with
    | .error _ => true
    | .ok df_htf =>
      if df_htf.length < 210 then true
      else
        let price := ((closes df_htf)[df_htf.length - 2]?).getD 0
        let e := ((ema (closes df_htf) 200)[df_htf.length - 2]?).getD 0
        if want_long then decide (price > e) else decide (price < e)

/-- `providers.ccxt_provider.CcxtProvider.fetch_funding_rate`: `hasFFR` is
`self.ex.has.get("fetchFundingRate", False)`; `upstream` the outcome of
`fetch_fundingRate` — `.error` a raise (caught, returning `None`), `.ok none`
a missing `"fundingRate"` value. A small value is rescaled to a percentage. -/
def fetch_funding_rate (hasFFR : Bool) (upstream : Except Unit (Option ℚ)) : Option ℚ :=
  if hasFFR then
    match upstream with
    | .error _ => none
    | .ok none => none
    | .ok (some v) => if |v| < 1 then some (v * 100) else some v
  else none

/-- `bullCross` of `main.scan_symbol`: EMA(5) above EMA(50) at the last closed
bar, not above one bar earlier, and close above EMA(200). -/
def bullCross (df : Frame) : Bool :=
  let n := df.length
  decide (((ema (closes df) 5)[n - 2]?).getD 0 > ((ema (closes df) 50)[n - 2]?).getD 0) &&
  decide (((ema (closes df) 5)[n - 3]?).getD 0 ≤ ((ema (closes df) 50)[n - 3]?).getD 0) &&
  decide (((closes df)[n - 2]?).getD 0 > ((ema (closes df) 200)[n - 2]?).getD 0)

/-- `bearCross` of `main.scan_symbol`: the mirror image. -/
def bearCross (df : Frame) : Bool :=
  let n := df.length
  decide (((ema (closes df) 5)[n - 2]?).getD 0 < ((ema (closes df) 50)[n - 2]?).getD 0) &&
  decide (((ema (closes df) 5)[n - 3]?).getD 0 ≥ ((ema (closes df) 50)[n - 3]?).getD 0) &&
  decide (((closes df)[n - 2]?).getD 0 < ((ema (closes df) 200)[n - 2]?).getD 0)

/-- The last closed bar's timestamp `int(row["time"].value)` at position `len - 2`. -/
def tstampOf (df : Frame) : ℤ := ((times df)[df.length - 2]?).getD 0

/-- The cooldown gate of `main.scan_symbol`: with a previous alert timestamp,
the bar duration is the difference of the two most recent timestamps of the
fetched series, and the candidate is rejected when the floor-divided elapsed
bar count (Python `//`) is below `COOLDOWN_BARS`; a non-positive duration
disables the gate. -/
def cooldownBlocked (cfg : Config) (df : Frame) (prev_t : Option ℤ) (tstamp_ns : ℤ) : Bool :=
  match prev_t with
  | none => false
  | some p =>
    let bar_ns := ((times df)[df.length - 1]?).getD 0 - ((times df)[df.length - 2]?).getD 0
    if bar_ns > 0 then decide (Int.fdiv (tstamp_ns - p) bar_ns < cfg.COOLDOWN_BARS)
    else false

/-- The funding filter of `main.scan_symbol`: when enabled, a raise from the
provider is swallowed (`except: pass`), a `None` rate never blocks, and a rate
of absolute value above `MAX_ABS_FUNDING` rejects by an early `return`. -/
def fundingReject (cfg : Config) (funding : Except Unit (Option ℚ)) : Bool :=
  if cfg.ENABLE_FUNDING_FILTER then
    match funding with
    | .error _ => false
    | .ok none => false
    | .ok (some fr) => decide (|fr| > cfg.MAX_ABS_FUNDING)
  else false

inductive Side where
  | LONG
  | SHORT
deriving DecidableEq

/-- The alert handed to `send_signal_embed`. -/
structure Alert where
  symbol : String
  side : Side
  leverage : ℤ
  entry_high : ℚ
  entry_low : ℚ
  stop_loss : ℚ
  take_profits : List ℚ
deriving DecidableEq

/-- What one call of `scan_symbol` does for its caller: emits an alert through
the sink, returns without one, or raises. -/
inductive ScanOutcome where
  | emit (a : Alert)
  | quiet
  | raised
deriving DecidableEq

def ScanOutcome.isEmit : ScanOutcome → Bool
  | .emit _ => true
  | _ => false

/-- The module state of `main`: `sent` the dedup dict keyed by
`f"{symbol}:{tstamp_ns}"` (a key here the pair itself) and `last_bar_index`
the cooldown dict `symbol -> tstamp_ns`. A Python dict write is modelled by
prepending, a read by `List.lookup` / membership, which see the newest entry. -/
structure ScanState where
  sent : List (String × ℤ)
  last_bar_index : List (String × ℤ)
deriving DecidableEq

/-- `main.scan_symbol`. `fetch` is the outcome of the primary
`PROV.fetch_ohlcv_df` call, `htfFetch` the one `htf_trend_ok` would make,
`funding` the funding-rate call's outcome, and `sinkOk` whether
`send_signal_embed` returns normally (`False`: it raises, e.g. from
`raise_for_status`). Steps in source order: length gate; indicator columns;
`df.iloc[-3]` (an IndexError — a raise — when the frame is shorter than 3);
per-bar dedup; base filters; cooldown; funding filter; LONG then SHORT
emission, each marking `sent` and `last_bar_index` after the sink call. -/
def scanSymbol (cfg : Config) (symbol : String) (fetch : Except Unit Frame)
    (htfFetch : Except Unit Frame) (funding : Except Unit (Option ℚ))
    (sinkOk : Bool) (st : ScanState) : ScanOutcome × ScanState :=
  match fetch with
  | .error _ => (.raised, st)
  | .ok df =>
    if df.length < cfg.MIN_BARS then (.quiet, st)
    else if df.length < 3 then (.raised, st)
    else
      let tstamp_ns := tstampOf df
      if (symbol, tstamp_ns) ∈ st.sent then (.quiet, st)
      else if passes_filters cfg df = false then (.quiet, st)
      else if cooldownBlocked cfg df (st.last_bar_index.lookup symbol) tstamp_ns then (.quiet, st)
      else if fundingReject cfg funding then (.quiet, st)
      else
        let atr_last := ((atr df 14)[df.length - 2]?).getD none
        let close_last := ((closes df)[df.length - 2]?).getD 0
        if bullCross df && htf_trend_ok cfg htfFetch true && atr_last.isSome then
          let s := long_setup cfg close_last (atr_last.getD 0)
          if sinkOk then
            (.emit ⟨symbol, .LONG, cfg.LEVERAGE, s.1, s.2.1, s.2.2,
               format_tps close_last (atr_last.getD 0) cfg.TP_MULT⟩,
             ⟨(symbol, tstamp_ns) :: st.sent, (symbol, tstamp_ns) :: st.last_bar_index⟩)
          else (.raised, st)
        else if bearCross df && htf_trend_ok cfg htfFetch false && atr_last.isSome then
          let s := short_setup cfg close_last (atr_last.getD 0)
          if sinkOk then
            (.emit ⟨symbol, .SHORT, cfg.LEVERAGE, s.1, s.2.1, s.2.2,
               cfg.TP_MULT.map fun m => close_last - m * (atr_last.getD 0)⟩,
             ⟨(symbol, tstamp_ns) :: st.sent, (symbol, tstamp_ns) :: st.last_bar_index⟩)
          else (.raised, st)
        else (.quiet, st)

/-- pandas `df.sort_values("time")`: some ascending sort by the time key
(`sort_values` makes no stability promise under its default kind). -/
def sortByTime (df : Frame) : Frame :=
  df.mergeSort fun a b => decide (a.time ≤ b.time)

/-- The frame `BlofinProvider._rest_fetch_ohlcv_df` returns once a kline
payload has been parsed into rows: the rows sorted by time, nothing dropped. -/
def blofin_rest_fetch_ohlcv_df (rows : List Bar) : Frame := sortByTime rows

/-- The frame `HyperliquidProvider._rest_fetch_ohlcv_df` returns once a
payload has been parsed into rows: identical post-processing to BloFin's. -/
def hyperliquid_rest_fetch_ohlcv_df (rows : List Bar) : Frame := sortByTime rows

/-- `CcxtProvider.fetch_ohlcv_df`: the upstream `fetch_ohlcv` rows are framed
as-is — no sort, no deduplication. -/
def ccxt_fetch_ohlcv_df (rows : List Bar) : Frame := rows

/-- Ascending-and-deduplicated by open_time, as the spec states it: the time
key strictly increases from row to row (so no two rows share an open_time). -/
def strictlyAscendingDedup (df : Frame) : Prop :=
  List.Chain' (fun a b => a.time < b.time) df

/-! ### Concrete inputs for witnesses and counterexamples -/

/-- Bar `i` of a synthetic series: strictly rising highs and lows (so `+DM`
is positive and `-DM` zero at every row after the first), closes drifting
down from 100 and jumping to 200 at row 26 (a bullish EMA(5)/EMA(50)
crossover at the last closed bar of a 28-row frame), volume spiking at 26. -/
def rampBar (i : ℕ) : Bar :=
  ⟨1000 * (i : ℤ), 100 - (i : ℚ), 2000 + (i : ℚ), (i : ℚ),
   if i = 26 ∨ i = 27 then 200 else 100 - (i : ℚ), if i = 26 then 2 else 1⟩

/-- A 28-row frame on which every gate of `scan_symbol` accepts the LONG
candidate at the last closed bar (row 26). -/
def df28 : Frame := (List.range 28).map rampBar

/-- The default configuration with `MIN_BARS` lowered to the 28 rows of
`df28` and the higher-timeframe gate off, as env vars can set them. -/
def testConfig : Config :=
  { defaultConfig with MIN_BARS := 28, REQUIRE_TREND_HTF := false }

def emptyState : ScanState := ⟨[], []⟩

/-- Two bars whose second row moves strictly inside the first: both
directional movements are zero there while the true range stays positive,
so both DI are `0` at row 1. -/
def bars2 : Frame := [⟨0, 9.5, 10, 9, 9.5, 1⟩, ⟨1000, 9.5, 9.8, 9.2, 9.5, 1⟩]

/-- Three constant bars (enough rows for `df.iloc[-3]`). -/
def df3 : Frame := [⟨0, 1, 1, 1, 1, 1⟩, ⟨1000, 1, 1, 1, 1, 1⟩, ⟨2000, 1, 1, 1, 1, 1⟩]

/-- 210 constant bars: enough higher-timeframe history for the trend gate to
actually compare price with the EMA(200). -/
def df210 : Frame := (List.range 210).map fun i => ⟨1000 * (i : ℤ), 1, 1, 1, 1, 1⟩

/-! ### Column plumbing lemmas -/

theorem length_trAbsGo (p : Bar) (l : List Bar) : (trAbsGo p l).length = l.length := by
  induction l generalizing p with
  | nil => rfl
  | cons b t ih => simp [trAbsGo, ih]

theorem length_trAbs (df : Frame) : (trAbs df).length = df.length := by
  cases df with
  | nil => rfl
  | cons b t => simp [trAbs, length_trAbsGo]

theorem length_trRawGo (p : Bar) (l : List Bar) : (trRawGo p l).length = l.length := by
  induction l generalizing p with
  | nil => rfl
  | cons b t ih => simp [trRawGo, ih]

theorem length_trRaw (df : Frame) : (trRaw df).length = df.length := by
  cases df with
  | nil => rfl
  | cons b t => simp [trRaw, length_trRawGo]

theorem length_plusDMGo (p : Bar) (l : List Bar) : (plusDMGo p l).length = l.length := by
  induction l generalizing p with
  | nil => rfl
  | cons b t ih => simp [plusDMGo, ih]

theorem length_plusDM (df : Frame) : (plusDM df).length = df.length := by
  cases df with
  | nil => rfl
  | cons b t => simp [plusDM, length_plusDMGo]

theorem length_minusDMGo (p : Bar) (l : List Bar) : (minusDMGo p l).length = l.length := by
  induction l generalizing p with
  | nil => rfl
  | cons b t ih => simp [minusDMGo, ih]

theorem length_minusDM (df : Frame) : (minusDM df).length = df.length := by
  cases df with
  | nil => rfl
  | cons b t => simp [minusDM, length_minusDMGo]

theorem length_rollingMeanO (L : ℕ) (xs : List (Option ℚ)) :
    (rollingMeanO L xs).length = xs.length := by
  simp [rollingMeanO]

theorem length_rollingMean (L : ℕ) (xs : List ℚ) :
    (rollingMean L xs).length = xs.length := by
  simp [rollingMean, length_rollingMeanO]

theorem length_plusDI (df : Frame) (L : ℕ) : (plusDI df L).length = df.length := by
  simp [plusDI, length_rollingMean, length_plusDM, length_trRaw]

theorem length_minusDI (df : Frame) (L : ℕ) : (minusDI df L).length = df.length := by
  simp [minusDI, length_rollingMean, length_minusDM, length_trRaw]

theorem length_dxSeries (df : Frame) (L : ℕ) : (dxSeries df L).length = df.length := by
  simp [dxSeries, length_plusDI, length_minusDI]

theorem getElem?_rollingMeanO (L : ℕ) (xs : List (Option ℚ)) (i : ℕ) (h : i < xs.length) :
    (rollingMeanO L xs)[i]? =
      some (if L ≤ i + 1 then (osum (windowAt L i xs)).map (fun s => s / (L : ℚ)) else none) := by
  simp [rollingMeanO, List.getElem?_range h]

theorem oadd_none_left (x : Option ℚ) : oadd none x = none := by
  cases x <;> rfl

theorem oadd_none_right (x : Option ℚ) : oadd x none = none := by
  cases x <;> rfl

theorem osum_map_some (l : List ℚ) : osum (l.map some) = some l.sum := by
  induction l with
  | nil => rfl
  | cons x t ih => simp [osum, oadd, ih]

theorem osum_eq_none (l : List (Option ℚ)) (h : none ∈ l) : osum l = none := by
  induction l with
  | nil => cases h
  | cons x t ih =>
    cases h with
    | head => simp [osum, oadd_none_left]
    | tail _ hm => simp [osum, ih hm, oadd_none_right]

theorem osum_isSome_iff (l : List (Option ℚ)) :
    (osum l).isSome = true ↔ ∀ x ∈ l, x.isSome = true := by
  induction l with
  | nil => simp [osum]
  | cons x t ih =>
    cases x with
    | none => simp [osum, oadd_none_left]
    | some a =>
      cases hsum : osum t with
      | none => simpa [osum, hsum, oadd_none_right] using ih
      | some s => simpa [osum, hsum, oadd] using ih

theorem windowAt_map (L i : ℕ) (f : α → β) (xs : List α) :
    windowAt L i (xs.map f) = (windowAt L i xs).map f := by
  simp [windowAt, List.map_take, List.map_drop]

theorem mem_windowAt (L i : ℕ) (hL : 1 ≤ L) (hLi : L ≤ i + 1) (xs : List (Option ℚ))
    (x : Option ℚ) (hx : xs[i + 1 - L]? = some x) : x ∈ windowAt L i xs := by
  have hlt : i + 1 - L < xs.length := by
    by_contra hge
    rw [List.getElem?_eq_none (by omega)] at hx
    cases hx
  rw [windowAt, List.drop_eq_getElem_cons hlt]
  cases L with
  | zero => omega
  | succ L₀ =>
    rw [List.take_succ_cons]
    rw [List.getElem?_eq_getElem hlt] at hx
    rw [Option.some_injective _ hx]
    exact List.mem_cons_self _ _

theorem dxSeries_warmup (df : Frame) (L j : ℕ) (hj : j < df.length) (hwarm : j + 1 < L) :
    (dxSeries df L)[j]? = some none := by
  have h1 : (rollingMean L (plusDM df))[j]? = some none := by
    rw [rollingMean, getElem?_rollingMeanO L _ j (by simp [length_plusDM]; omega)]
    rw [if_neg (by omega)]
  have h2 : ∃ w, (rollingMean L (trRaw df))[j]? = some w := by
    rw [rollingMean, getElem?_rollingMeanO L _ j (by simp [length_trRaw]; omega)]
    exact ⟨_, rfl⟩
  obtain ⟨w, h2⟩ := h2
  have hp : (plusDI df L)[j]? = some none := by
    rw [plusDI, List.getElem?_zipWith, h1, h2]
    rfl
  have hm : ∃ v, (minusDI df L)[j]? = some v := by
    rw [minusDI, List.getElem?_zipWith, h2]
    cases hmm : (rollingMean L (minusDM df))[j]? with
    | none =>
      rw [List.getElem?_eq_none_iff] at hmm
      rw [length_rollingMean, length_minusDM] at hmm
      omega
    | some v => exact ⟨_, rfl⟩
  obtain ⟨v, hm⟩ := hm
  rw [dxSeries, List.getElem?_zipWith, hp, hm]
  rfl

/-! ### Shape of one `scan_symbol` call (helper) -/

/-- Every run of `scan_symbol` either returns quietly or raises with the state
untouched, or — only with a succeeding sink — emits and prepends the
`(symbol, bar_close_time)` key to both state dicts. -/
theorem scanSymbol_shape (cfg : Config) (symbol : String) (fetch htfFetch : Except Unit Frame)
    (funding : Except Unit (Option ℚ)) (sinkOk : Bool) (st : ScanState) :
    scanSymbol cfg symbol fetch htfFetch funding sinkOk st = (.quiet, st) ∨
    scanSymbol cfg symbol fetch htfFetch funding sinkOk st = (.raised, st) ∨
    (sinkOk = true ∧ ∃ df a, fetch = .ok df ∧
      scanSymbol cfg symbol fetch htfFetch funding sinkOk st =
        (.emit a, ⟨(symbol, tstampOf df) :: st.sent, (symbol, tstampOf df) :: st.last_bar_index⟩)) := by
  cases fetch with
  | error e => exact Or.inr (Or.inl rfl)
  | ok df =>
    simp only [scanSymbol]
    by_cases h0 : df.length < cfg.MIN_BARS
    · rw [if_pos h0]; exact Or.inl rfl
    · rw [if_neg h0]
      by_cases h1 : df.length < 3
      · rw [if_pos h1]; exact Or.inr (Or.inl rfl)
      · rw [if_neg h1]
        by_cases h2 : (symbol, tstampOf df) ∈ st.sent
        · rw [if_pos h2]; exact Or.inl rfl
        · rw [if_neg h2]
          by_cases h4 : passes_filters cfg df = false
          · rw [if_pos h4]; exact Or.inl rfl
          · rw [if_neg h4]
            by_cases h5 : cooldownBlocked cfg df (st.last_bar_index.lookup symbol)
                (tstampOf df) = true
            · rw [if_pos h5]; exact Or.inl rfl
            · rw [if_neg h5]
              by_cases h6 : fundingReject cfg funding = true
              · rw [if_pos h6]; exact Or.inl rfl
              · rw [if_neg h6]
                by_cases h7 : (bullCross df && htf_trend_ok cfg htfFetch true &&
                    (((atr df 14)[df.length - 2]?).getD none).isSome) = true
                · rw [if_pos h7]
                  by_cases h8 : sinkOk = true
                  · rw [if_pos h8]; exact Or.inr (Or.inr ⟨h8, df, _, rfl, rfl⟩)
                  · rw [if_neg h8]; exact Or.inr (Or.inl rfl)
                · rw [if_neg h7]
                  by_cases h9 : (bearCross df && htf_trend_ok cfg htfFetch false &&
                      (((atr df 14)[df.length - 2]?).getD none).isSome) = true
                  · rw [if_pos h9]
                    by_cases h8 : sinkOk = true
                    · rw [if_pos h8]; exact Or.inr (Or.inr ⟨h8, df, _, rfl, rfl⟩)
                    · rw [if_neg h8]; exact Or.inr (Or.inl rfl)
                  · rw [if_neg h9]; exact Or.inl rfl

/-! ### The claims -/

/-- **C9** — A scan of a symbol that does not emit leaves `sent` and
`last_bar_index` exactly unchanged; they are mutated only on the emission
paths, which prepend the one new key to both. -/
theorem scan_frame_effect (cfg : Config) (symbol : String) (fetch htfFetch : Except Unit Frame)
    (funding : Except Unit (Option ℚ)) (sinkOk : Bool) (st : ScanState) :
    (scanSymbol cfg symbol fetch htfFetch funding sinkOk st).2 = st ∨
    ∃ a k, (scanSymbol cfg symbol fetch htfFetch funding sinkOk st).1 = .emit a ∧
      (scanSymbol cfg symbol fetch htfFetch funding sinkOk st).2 =
        ⟨k :: st.sent, k :: st.last_bar_index⟩ := by
  rcases scanSymbol_shape cfg symbol fetch htfFetch funding sinkOk st with h | h | ⟨-, df, a, -, h⟩
  · rw [h]; exact Or.inl rfl
  · rw [h]; exact Or.inl rfl
  · rw [h]; exact Or.inr ⟨a, (symbol, tstampOf df), rfl, rfl⟩

/-- **C2** — Once `(symbol, bar_close_time)` is in the dedup dict `sent`, a
later scan of that symbol seeing the same closed-bar timestamp returns
quietly, state unchanged, emitting nothing. -/
theorem dedup_second_scan_quiet (cfg : Config) (symbol : String) (df : Frame)
    (htfFetch : Except Unit Frame) (funding : Except Unit (Option ℚ)) (sinkOk : Bool)
    (st : ScanState) (h3 : 3 ≤ df.length) (hm : (symbol, tstampOf df) ∈ st.sent) :
    scanSymbol cfg symbol (.ok df) htfFetch funding sinkOk st = (.quiet, st) := by
  simp only [scanSymbol]
  by_cases h0 : df.length < cfg.MIN_BARS
  · rw [if_pos h0]
  · rw [if_neg h0, if_neg (by omega), if_pos hm]

/-- Witness for C2: a scan of three constant bars whose closed-bar timestamp
1000 is already marked for the symbol returns quietly and changes nothing. -/
theorem dedup_second_scan_quiet_witness :
    scanSymbol defaultConfig "BTC/USD" (.ok df3) (.error ()) (.ok none) true
        ⟨[("BTC/USD", 1000)], []⟩ =
      (.quiet, ⟨[("BTC/USD", 1000)], []⟩) :=
  dedup_second_scan_quiet defaultConfig "BTC/USD" df3 (.error ()) (.ok none) true
    ⟨[("BTC/USD", 1000)], []⟩ (by decide) (by decide)

/-- **C1**, counterexample — On a frame every gate accepts, the scan emits
when the sink succeeds; but when the sink raises, the call raises and the
accepted bar's key is *not* in the dedup dict afterwards (nor is the cooldown
entry updated), contradicting "dedup/cooldown state is driven by detection,
not by delivery": `sent[key] = True` runs only after `send_signal_embed`
returns. -/
theorem sink_raise_leaves_dedup_unmarked_cex :
    (scanSymbol testConfig "BTC/USD" (.ok df28) (.error ()) (.ok none) true emptyState).1.isEmit
      = true ∧
    scanSymbol testConfig "BTC/USD" (.ok df28) (.error ()) (.ok none) false emptyState
      = (.raised, emptyState) ∧
    ("BTC/USD", tstampOf df28) ∉
      (scanSymbol testConfig "BTC/USD" (.ok df28) (.error ()) (.ok none) false emptyState).2.sent := by
  refine ⟨?_, ?_, ?_⟩
  · with_unfolding_all rfl
  · with_unfolding_all rfl
  · with_unfolding_all decide

/-- **C1**, amended — The dedup and cooldown entries are written only after a
successful sink call: a scan whose sink raises always leaves the state
unchanged (and emits nothing), and whenever an accepted candidate is emitted
with a succeeding sink, both entries are set to `(symbol, bar_close_time)`. -/
theorem state_update_requires_sink_success (cfg : Config) (symbol : String)
    (fetch htfFetch : Except Unit Frame) (funding : Except Unit (Option ℚ)) (st : ScanState) :
    (scanSymbol cfg symbol fetch htfFetch funding false st).2 = st ∧
    (scanSymbol cfg symbol fetch htfFetch funding false st).1.isEmit = false ∧
    (∀ df, fetch = .ok df →
      (scanSymbol cfg symbol fetch htfFetch funding true st).1.isEmit = true →
      (scanSymbol cfg symbol fetch htfFetch funding true st).2 =
        ⟨(symbol, tstampOf df) :: st.sent, (symbol, tstampOf df) :: st.last_bar_index⟩) := by
  refine ⟨?_, ?_, ?_⟩
  · rcases scanSymbol_shape cfg symbol fetch htfFetch funding false st with h | h | ⟨h8, -⟩
    · rw [h]
    · rw [h]
    · cases h8
  · rcases scanSymbol_shape cfg symbol fetch htfFetch funding false st with h | h | ⟨h8, -⟩
    · rw [h]; rfl
    · rw [h]; rfl
    · cases h8
  · intro df hdf hemit
    rcases scanSymbol_shape cfg symbol fetch htfFetch funding true st with h | h | ⟨-, df₀, a, hf, h⟩
    · rw [h] at hemit; cases hemit
    · rw [h] at hemit; cases hemit
    · rw [hdf] at hf
      cases hf
      rw [h]

/-- Witness for the amended C1 at the accepting 28-bar frame: with a raising
sink the state stays empty; with a succeeding sink both dicts get the key
`("BTC/USD", 26000)`. -/
theorem state_update_requires_sink_success_witness :
    (scanSymbol testConfig "BTC/USD" (.ok df28) (.error ()) (.ok none) false emptyState).2
      = emptyState ∧
    (scanSymbol testConfig "BTC/USD" (.ok df28) (.error ()) (.ok none) true emptyState).2
      = ⟨[("BTC/USD", tstampOf df28)], [("BTC/USD", tstampOf df28)]⟩ :=
  ⟨(state_update_requires_sink_success testConfig "BTC/USD" (.ok df28) (.error ())
      (.ok none) emptyState).1,
   (state_update_requires_sink_success testConfig "BTC/USD" (.ok df28) (.error ())
      (.ok none) emptyState).2.2 df28 rfl (by with_unfolding_all rfl)⟩

/-- **C3** — With a prior alert for the symbol and a positive bar duration
(read off the two most recent timestamps of the fetched series, not a
configured constant), and every other gate of an otherwise-accepted LONG
candidate passing, the scan is suppressed exactly when the floor-divided
elapsed bar count is below `COOLDOWN_BARS`, and emits (updating both state
dicts) exactly when it is at least `COOLDOWN_BARS`. -/
theorem cooldown_gate_exact (cfg : Config) (symbol : String) (df : Frame)
    (htfFetch : Except Unit Frame) (funding : Except Unit (Option ℚ)) (st : ScanState)
    (prev : ℤ)
    (hmin : ¬ df.length < cfg.MIN_BARS) (h3 : 3 ≤ df.length)
    (hded : (symbol, tstampOf df) ∉ st.sent)
    (hfil : passes_filters cfg df = true)
    (hprev : st.last_bar_index.lookup symbol = some prev)
    (hbar : 0 < ((times df)[df.length - 1]?).getD 0 - ((times df)[df.length - 2]?).getD 0)
    (hfund : fundingReject cfg funding = false)
    (hlong : (bullCross df && htf_trend_ok cfg htfFetch true &&
        (((atr df 14)[df.length - 2]?).getD none).isSome) = true) :
    (Int.fdiv (tstampOf df - prev)
          (((times df)[df.length - 1]?).getD 0 - ((times df)[df.length - 2]?).getD 0)
        < cfg.COOLDOWN_BARS →
      scanSymbol cfg symbol (.ok df) htfFetch funding true st = (.quiet, st)) ∧
    (cfg.COOLDOWN_BARS ≤ Int.fdiv (tstampOf df - prev)
          (((times df)[df.length - 1]?).getD 0 - ((times df)[df.length - 2]?).getD 0) →
      ∃ a, scanSymbol cfg symbol (.ok df) htfFetch funding true st =
        (.emit a, ⟨(symbol, tstampOf df) :: st.sent,
                   (symbol, tstampOf df) :: st.last_bar_index⟩)) := by
  constructor
  · intro hlt
    have hcool : cooldownBlocked cfg df (st.last_bar_index.lookup symbol) (tstampOf df)
        = true := by
      rw [hprev]
      simp only [cooldownBlocked]
      rw [if_pos hbar]
      exact decide_eq_true hlt
    simp only [scanSymbol]
    rw [if_neg hmin, if_neg (by omega), if_neg hded, if_neg (by simp [hfil]), if_pos hcool]
  · intro hge
    have hcool : ¬ cooldownBlocked cfg df (st.last_bar_index.lookup symbol) (tstampOf df)
        = true := by
      rw [hprev]
      simp only [cooldownBlocked]
      rw [if_pos hbar]
      simp
      omega
    simp only [scanSymbol]
    rw [if_neg hmin, if_neg (by omega), if_neg hded, if_neg (by simp [hfil]), if_neg hcool,
      if_neg (by simp [hfund]), if_pos hlong, if_pos trivial]
    exact ⟨_, rfl⟩

/-- Witness for C3 on the accepting 28-bar frame (closed bar at 26000 ns, bar
duration 1000 ns, cooldown 12 bars): a prior alert 5 bars back suppresses the
scan; a prior alert 24 bars back lets it emit and update both dicts. -/
theorem cooldown_gate_exact_witness :
    scanSymbol testConfig "BTC/USD" (.ok df28) (.error ()) (.ok none) true
        ⟨[], [("BTC/USD", 21000)]⟩ =
      (.quiet, ⟨[], [("BTC/USD", 21000)]⟩) ∧
    ∃ a, scanSymbol testConfig "BTC/USD" (.ok df28) (.error ()) (.ok none) true
        ⟨[], [("BTC/USD", 2000)]⟩ =
      (.emit a, ⟨[("BTC/USD", tstampOf df28)],
                 [("BTC/USD", tstampOf df28), ("BTC/USD", 2000)]⟩) :=
  ⟨(cooldown_gate_exact testConfig "BTC/USD" df28 (.error ()) (.ok none)
      ⟨[], [("BTC/USD", 21000)]⟩ 21000 (by decide) (by decide) (by decide)
      (by with_unfolding_all rfl) (by decide) (by decide) (by decide)
      (by with_unfolding_all rfl)).1 (by decide),
   (cooldown_gate_exact testConfig "BTC/USD" df28 (.error ()) (.ok none)
      ⟨[], [("BTC/USD", 2000)]⟩ 2000 (by decide) (by decide) (by decide)
      (by with_unfolding_all rfl) (by decide) (by decide) (by decide)
      (by with_unfolding_all rfl)).2 (by decide)⟩

/-- **C4** — LONG levels: at close 100, ATR 2 and the default multipliers
(pull_upper 0.20, pull_lower 0.35, risk 2.2) the entries are 99.6/99.3, the
stop 95.6 and a 0.4-multiplier target 100.8; targets are `close + mᵢ·ATR`
in the configured order; and for every close and positive ATR,
`entry_low < entry_high < close` and `stop < entry_low`. -/
theorem long_levels :
    long_setup defaultConfig 100 2 = (99.6, 99.3, 95.6) ∧
    format_tps 100 2 [0.4] = [100.8] ∧
    (∀ c a : ℚ, ∀ ms : List ℚ, format_tps c a ms = ms.map fun m => c + m * a) ∧
    ∀ c a : ℚ, 0 < a →
      (long_setup defaultConfig c a).2.1 < (long_setup defaultConfig c a).1 ∧
      (long_setup defaultConfig c a).1 < c ∧
      (long_setup defaultConfig c a).2.2 < (long_setup defaultConfig c a).2.1 := by
  refine ⟨by with_unfolding_all rfl, by with_unfolding_all rfl, fun c a ms => rfl, ?_⟩
  intro c a ha
  refine ⟨?_, ?_, ?_⟩ <;>
    · simp only [long_setup, defaultConfig]
      nlinarith

/-- Witness for C4's universally quantified part at close 100, ATR 2. -/
theorem long_levels_witness :
    (0 : ℚ) < 2 ∧
    ((long_setup defaultConfig 100 2).2.1 < (long_setup defaultConfig 100 2).1 ∧
     (long_setup defaultConfig 100 2).1 < 100 ∧
     (long_setup defaultConfig 100 2).2.2 < (long_setup defaultConfig 100 2).2.1) :=
  ⟨by norm_num, long_levels.2.2.2 100 2 (by norm_num)⟩

/-- **C5**, counterexample — In `bars2` both DI are `0` at row 1, and DX there
is NaN (`none`), not `0`: `(plus_di + minus_di).replace(0, np.nan)` makes the
degenerate denominator NaN, so the quotient is NaN. -/
theorem dx_degenerate_nan_cex :
    (plusDI bars2 2)[1]? = some (some 0) ∧
    (minusDI bars2 2)[1]? = some (some 0) ∧
    (dxSeries bars2 2)[1]? = some none ∧
    ¬ (dxSeries bars2 2)[1]? = some (some 0) := by
  refine ⟨?_, ?_, ?_, ?_⟩
  · with_unfolding_all rfl
  · with_unfolding_all rfl
  · with_unfolding_all rfl
  · with_unfolding_all decide

/-- **C5**, amended — At every index where both directional indices are
defined and sum to zero (in particular where both are 0), DX is NaN: the
division is guarded by `replace(0, np.nan)`, so the degenerate case yields
NaN (no division-by-zero error, but not the value 0). -/
theorem dx_degenerate_nan (df : Frame) (L i : ℕ) (p m : ℚ)
    (hp : (plusDI df L)[i]? = some (some p))
    (hm : (minusDI df L)[i]? = some (some m))
    (hpm : p + m = 0) :
    (dxSeries df L)[i]? = some none := by
  rw [dxSeries, List.getElem?_zipWith, hp, hm]
  simp [dxPart, hpm]

/-- Witness for the amended C5 at `bars2`, row 1, where both DI are 0. -/
theorem dx_degenerate_nan_witness : (dxSeries bars2 2)[1]? = some none :=
  dx_degenerate_nan bars2 2 1 0 0 (by with_unfolding_all rfl)
    (by with_unfolding_all rfl) (by norm_num)

/-- **C6**, counterexample — On the two-bar frame with length 2, ATR(2) is
finite at index 1 = L−1, but ADX(2) is NaN there (its DX input is itself NaN
through index L−2, so the rolling mean only fills from index 2(L−1) on),
refuting "ADX(L) finite at every index ≥ L−1". -/
theorem adx_warmup_cex :
    (((atr bars2 2)[1]?).getD none).isSome = true ∧
    (adx bars2 2)[1]? = some none ∧
    (((adx bars2 2)[1]?).getD none).isSome = false := by
  refine ⟨?_, ?_, ?_⟩ <;> with_unfolding_all rfl

/-- **C6**, amended — For `1 ≤ L` and an index `i` inside the series: ATR(L)
is NaN exactly at `i < L − 1` (finite from `L − 1` on); ADX(L) is NaN at
every `i < 2(L − 1)`; and from `2(L − 1)` on, ADX is finite exactly when
every DX entry of its length-`L` window is defined. -/
theorem indicator_warmup (df : Frame) (L i : ℕ) (hL : 1 ≤ L) (hi : i < df.length) :
    ((atr df L)[i]? = some none ↔ i + 1 < L) ∧
    (i + 2 < 2 * L → (adx df L)[i]? = some none) ∧
    (2 * L ≤ i + 2 →
      ((((adx df L)[i]?).getD none).isSome = true ↔
        ∀ x ∈ windowAt L i (dxSeries df L), x.isSome = true)) := by
  have hatr : i < ((trAbs df).map some).length := by
    rw [List.length_map, length_trAbs]
    omega
  have hdx : i < (dxSeries df L).length := by
    rw [length_dxSeries]
    omega
  refine ⟨?_, ?_, ?_⟩
  · rw [atr, rollingMean, getElem?_rollingMeanO L _ i hatr]
    constructor
    · intro h
      by_contra hge
      rw [if_pos (by omega), windowAt_map, osum_map_some] at h
      simp at h
    · intro h
      rw [if_neg (by omega)]
  · intro hb
    rw [adx, getElem?_rollingMeanO L _ i hdx]
    by_cases hc : L ≤ i + 1
    · rw [if_pos hc]
      have hj : (dxSeries df L)[i + 1 - L]? = some none :=
        dxSeries_warmup df L (i + 1 - L) (by omega) (by omega)
      have hmem : none ∈ windowAt L i (dxSeries df L) :=
        mem_windowAt L i hL hc _ none hj
      rw [osum_eq_none _ hmem]
      rfl
    · rw [if_neg hc]
  · intro hc
    have hLi : L ≤ i + 1 := by omega
    rw [adx, getElem?_rollingMeanO L _ i hdx, if_pos hLi]
    simp only [Option.getD_some, Option.isSome_map']
    exact osum_isSome_iff _

/-- Witness for the amended C6 at `bars2` with `L = 2`, `i = 1`. -/
theorem indicator_warmup_witness :
    ((atr bars2 2)[1]? = some none ↔ 1 + 1 < 2) ∧
    (1 + 2 < 2 * 2 → (adx bars2 2)[1]? = some none) ∧
    (2 * 2 ≤ 1 + 2 →
      ((((adx bars2 2)[1]?).getD none).isSome = true ↔
        ∀ x ∈ windowAt 2 1 (dxSeries bars2 2), x.isSome = true)) :=
  indicator_warmup bars2 2 1 (by norm_num) (by norm_num [bars2])

/-- **C7**, counterexample — Two parsed rows sharing open_time 1: the BloFin
fetcher only sorts, so the returned frame still holds both rows and is not
strictly ascending by open_time — nothing deduplicates by open_time. -/
theorem provider_order_cex :
    ¬ strictlyAscendingDedup
        (blofin_rest_fetch_ohlcv_df [⟨1, 1, 1, 1, 1, 1⟩, ⟨1, 2, 2, 2, 2, 2⟩]) := by
  intro h
  have hperm := List.mergeSort_perm
    [(⟨1, 1, 1, 1, 1, 1⟩ : Bar), ⟨1, 2, 2, 2, 2, 2⟩] fun a b => decide (a.time ≤ b.time)
  have hmap := hperm.map Bar.time
  rw [strictlyAscendingDedup] at h
  have hchain : List.Chain' (· < ·)
      ((blofin_rest_fetch_ohlcv_df [⟨1, 1, 1, 1, 1, 1⟩, ⟨1, 2, 2, 2, 2, 2⟩]).map Bar.time) :=
    (List.chain'_map Bar.time).mpr h
  have hnd := (List.chain'_iff_pairwise.mp hchain).imp
    (fun hab => ne_of_lt hab)
  have hbad := hmap.nodup_iff.mp hnd
  simp [Bar.time] at hbad

/-- **C7**, amended — The BloFin and Hyperliquid REST fetchers return the
parsed rows sorted (non-strictly) ascending by open_time, every row kept (a
permutation of the input, duplicate open_times included); the ccxt fetcher
returns the upstream rows unchanged. No fetcher deduplicates by open_time. -/
theorem provider_order (rows : List Bar) :
    List.Pairwise (fun a b => a.time ≤ b.time) (blofin_rest_fetch_ohlcv_df rows) ∧
    (blofin_rest_fetch_ohlcv_df rows).Perm rows ∧
    List.Pairwise (fun a b => a.time ≤ b.time) (hyperliquid_rest_fetch_ohlcv_df rows) ∧
    (hyperliquid_rest_fetch_ohlcv_df rows).Perm rows ∧
    ccxt_fetch_ohlcv_df rows = rows := by
  have hsort : List.Pairwise (fun a b : Bar => decide (a.time ≤ b.time) = true)
      (rows.mergeSort fun a b => decide (a.time ≤ b.time)) :=
    List.sorted_mergeSort
      (fun a b c hab hbc => by
        simp only [decide_eq_true_eq] at *
        exact le_trans hab hbc)
      (fun a b => by
        rcases Int.le_total a.time b.time with h | h <;> simp [h])
      rows
  exact ⟨hsort.imp fun h => of_decide_eq_true h, List.mergeSort_perm rows _,
    hsort.imp fun h => of_decide_eq_true h, List.mergeSort_perm rows _, rfl⟩

/-- **C8** — The higher-timeframe gate fails open: a raising secondary fetch
returns `True` for either direction, as does a secondary series with fewer
than 210 rows; only with the gate enabled and enough history does it compare
the close with the EMA(200) at the secondary series' last closed bar (above
for long, below for short). -/
theorem htf_fail_open (cfg : Config) (e : Unit) (df : Frame) (wl : Bool) :
    htf_trend_ok cfg (.error e) wl = true ∧
    (df.length < 210 → htf_trend_ok cfg (.ok df) wl = true) ∧
    (cfg.REQUIRE_TREND_HTF = true → 210 ≤ df.length →
      htf_trend_ok cfg (.ok df) true =
        decide (((closes df)[df.length - 2]?).getD 0
          > ((ema (closes df) 200)[df.length - 2]?).getD 0) ∧
      htf_trend_ok cfg (.ok df) false =
        decide (((closes df)[df.length - 2]?).getD 0
          < ((ema (closes df) 200)[df.length - 2]?).getD 0)) := by
  by_cases hreq : cfg.REQUIRE_TREND_HTF = false
  · refine ⟨by simp [htf_trend_ok, hreq], fun h => by simp [htf_trend_ok, hreq], fun h => ?_⟩
    rw [hreq] at h
    cases h
  · refine ⟨by simp [htf_trend_ok, hreq], fun h => ?_, fun _ hlen => ?_⟩
    · simp only [htf_trend_ok, if_neg hreq]
      rw [if_pos h]
    · constructor
      · simp only [htf_trend_ok, if_neg hreq]
        rw [if_neg (by omega), if_pos trivial]
      · simp only [htf_trend_ok, if_neg hreq]
        rw [if_neg (by omega), if_neg (by simp)]

/-- Witness for C8: a raising fetch and a 3-row secondary series fail open
under the default (gate-enabled) configuration; a 210-row constant series is
actually compared — price equals the EMA(200) there, so the long gate is the
comparison's value, `false`. -/
theorem htf_fail_open_witness :
    htf_trend_ok defaultConfig (.error ()) true = true ∧
    htf_trend_ok defaultConfig (.ok df3) true = true ∧
    htf_trend_ok defaultConfig (.ok df210) true =
      decide (((closes df210)[df210.length - 2]?).getD 0
        > ((ema (closes df210) 200)[df210.length - 2]?).getD 0) :=
  ⟨(htf_fail_open defaultConfig () df3 true).1,
   (htf_fail_open defaultConfig () df3 true).2.1 (by decide),
   ((htf_fail_open defaultConfig () df210 true).2.2 rfl (by decide)).1⟩

/-- **C10** — The ccxt funding fetcher rescales: an upstream value `v` with
`|v| < 1` comes back as `v × 100`, one with `|v| ≥ 1` unchanged; and it
returns `None` (never raising) when the exchange lacks funding support, the
value is missing, or the upstream call raises. -/
theorem funding_rescale (v : ℚ) (e : Unit) (upstream : Except Unit (Option ℚ)) :
    (|v| < 1 → fetch_funding_rate true (.ok (some v)) = some (v * 100)) ∧
    (1 ≤ |v| → fetch_funding_rate true (.ok (some v)) = some v) ∧
    fetch_funding_rate true (.ok none) = none ∧
    fetch_funding_rate true (.error e) = none ∧
    fetch_funding_rate false upstream = none := by
  refine ⟨fun h => ?_, fun h => ?_, rfl, rfl, rfl⟩
  · simp [fetch_funding_rate, h]
  · simp [fetch_funding_rate, not_lt.mpr h]

/-- Witness for C10 at `v = 0.003` (rescaled to 0.3) and `v = 3` (kept). -/
theorem funding_rescale_witness :
    fetch_funding_rate true (.ok (some 0.003)) = some 0.3 ∧
    fetch_funding_rate true (.ok (some 3)) = some 3 := by
  constructor
  · rw [(funding_rescale 0.003 () (.ok none)).1 (by rw [abs_lt]; norm_num)]
    norm_num
  · exact (funding_rescale 3 () (.ok none)).2.1 (by norm_num)

end VipSignals
